import Mathlib

/-!
# Verification of the MPD visualization output plugin (connection lifecycle core)

Shallow embedding of the four translation units of the plugin:

* `VisualizationClient.{hxx,cxx}` — per-client connection (echo protocol,
  liveness flag, socket ownership);
* `VisualizationServer.{hxx,cxx}` — accept path with `max_clients` ceiling and
  the periodic reaper;
* `Visualization.{hxx,cxx}` — the shared state (`Open`/`Close`/`Play`, the
  `Timer`, the `static size_t num_calls` diagnostic counter);
* `VisualizationOutputPlugin.cxx` — the facade (`VisualizationOutput`), in
  particular its destructor's teardown order.

Bytes are modelled as `Nat`, the outbound `std::vector<uint8_t> buffer` as
`List Nat`, the socket and event-loop registration state as explicit booleans.
Code that lives outside these four files (`BufferedSocket::Close`, the event
loop's delivery contract, `Timer`) is modelled from the specification text and
marked as such in doc comments.
-/

namespace MPDVis

/-- Socket error classification as seen by `VisualizationClient::OnSocketReady`
(`net/SocketError.hxx`): `wouldBlock` is `IsSocketErrorSendWouldBlock`,
`closedErr` is `IsSocketErrorClosed`, `other` is everything else. -/
inductive SockErr where
  | wouldBlock
  | closedErr
  | other
deriving DecidableEq

/-- Result of the non-blocking `GetSocket().Write(&buffer[0], buffer.size())`
call: `ok n` is a return of `n ≥ 0` bytes accepted by the kernel (with
`n ≤ buffer.size()`), `err e` is a negative return with socket error `e`. -/
inductive WriteOutcome where
  | ok (n : Nat)
  | err (e : SockErr)
deriving DecidableEq

/-- State of one `VisualizationClient` (VisualizationClient.hxx):
`closed` is the `bool closed` liveness flag, `buffer` the outbound
`std::vector<uint8_t> buffer`, `readScheduled`/`writeScheduled` the event-loop
read/write interest, `released` whether the socket descriptor has been closed,
and `releases` counts how many times the descriptor was closed (to state
absence of double release). -/
structure ClientState where
  closed : Bool
  buffer : List Nat
  readScheduled : Bool
  writeScheduled : Bool
  released : Bool
  releases : Nat
deriving DecidableEq

/-- A freshly constructed client: `closed(false)`, empty buffer, socket owned
and registered for read by the `BufferedSocket` base. -/
def initialClient : ClientState :=
  { closed := false, buffer := [], readScheduled := true,
    writeScheduled := false, released := false, releases := 0 }

/-- Modelled from the spec: `BufferedSocket::Close` (event/BufferedSocket.hxx
is not among the sources) — per the spec's Connection events, closing
"cancels all interest" and "releases the socket". -/
def bufferedSocketClose (s : ClientState) : ClientState :=
  { s with readScheduled := false, writeScheduled := false,
           released := true, releases := s.releases + 1 }

/-- `VisualizationClient::OnSocketInput`: copies the received bytes to the
back of `buffer`, consumes the input, schedules a write, returns
`InputResult::PAUSE`. -/
def onSocketInput (s : ClientState) (bs : List Nat) : ClientState :=
  { s with buffer := s.buffer ++ bs, writeScheduled := true }

/-- The `SocketEvent::WRITE` branch of `VisualizationClient::OnSocketReady`:
writes `buffer` in one non-blocking call; on a negative return with
send-would-block it re-schedules the write and returns; on any other error it
sets `closed` and calls `Close()`; on a non-negative return `n` (the kernel
accepted the first `n` bytes) it erases the whole buffer and cancels write
interest. Also returns the bytes actually transmitted to the peer. -/
def onSocketReadyWrite (s : ClientState) (w : WriteOutcome) : ClientState × List Nat :=
  match w with
  | .ok n => ({ s with buffer := [], writeScheduled := false }, s.buffer.take n)
  | .err .wouldBlock => ({ s with writeScheduled := true }, [])
  | .err _ => ({ bufferedSocketClose s with closed := true }, [])

/-- The `SocketEvent::HANGUP` branch of `VisualizationClient::OnSocketReady`:
`closed = true; event.CancelRead(); event.CancelWrite(); Close();`. -/
def onSocketReadyHangup (s : ClientState) : ClientState :=
  { bufferedSocketClose s with closed := true }

/-- `VisualizationClient::OnSocketClosed`:
`event.CancelRead(); event.CancelWrite(); closed = true; Close();`. -/
def onSocketClosed (s : ClientState) : ClientState :=
  { bufferedSocketClose s with closed := true }

/-- `VisualizationClient::OnSocketError`: logs only, no state change. -/
def onSocketError (s : ClientState) : ClientState := s

/-- Events delivered to one client on the I/O thread. `input bs` is a readable
event that `BufferedSocket::OnSocketReady` turns into an `OnSocketInput` call
carrying the received bytes `bs`; the rest map one-to-one onto the handlers. -/
inductive ClientEvent where
  | input (bs : List Nat)
  | writable (w : WriteOutcome)
  | hangup
  | sockErrEvent
  | sockClosed
deriving DecidableEq

/-- One event dispatch on a client, returning the successor state and the
bytes transmitted to the peer during the event. -/
def clientStep (s : ClientState) (e : ClientEvent) : ClientState × List Nat :=
  match e with
  | .input bs => (onSocketInput s bs, [])
  | .writable w => onSocketReadyWrite s w
  | .hangup => (onSocketReadyHangup s, [])
  | .sockErrEvent => (onSocketError s, [])
  | .sockClosed => (onSocketClosed s, [])

/-- `VisualizationClient::~VisualizationClient`:
`if (!closed) { BufferedSocket::Close(); closed = true; }`. -/
def clientDtor (s : ClientState) : ClientState :=
  if s.closed then s else { bufferedSocketClose s with closed := true }

/-- `VisualizationClient::IsClosed`: the side-effect-free liveness query. -/
def IsClosed (s : ClientState) : Bool := s.closed

/-- Run a sequence of events against a client. -/
def runClient (s : ClientState) : List ClientEvent → ClientState
  | [] => s
  | e :: es => runClient (clientStep s e).1 es

/-- Modelled from the spec: the event loop (not among the sources) delivers
socket events to a client only while its socket is still registered, i.e. not
yet released — "once `liveness = Closed`, the socket is guaranteed closed and
the object performs no further I/O". -/
def deliverable (s : ClientState) (_e : ClientEvent) : Prop := s.released = false

/-- State of the `VisualizationServer` (VisualizationServer.hxx):
`max_clients` (`zero => unlimited`), the
`std::list<std::unique_ptr<VisualizationClient>> clients` as a `List`, and the
`CoarseTimerEvent reaper` as `some t` when a reap is scheduled to fire in `t`
seconds, `none` when the reaper is idle. -/
structure ServerState where
  max_clients : Nat
  clients : List ClientState
  reaper : Option Nat
deriving DecidableEq

/-- `VisualizationServer::OnAccept`: if
`max_clients && clients.size() > max_clients`, reject (log, and the new
socket, never inserted, is closed when the `UniqueSocketDescriptor` argument
goes out of scope); otherwise `push_back` a new `VisualizationClient` and
`reaper.Schedule(std::chrono::seconds(3))`. Returns the new server state and
whether the connection was accepted. -/
def OnAccept (s : ServerState) : ServerState × Bool :=
  if s.max_clients ≠ 0 ∧ s.clients.length > s.max_clients
  then (s, false)
  else ({ s with clients := s.clients ++ [initialClient], reaper := some 3 }, true)

/-- `VisualizationServer::ReapClients` (invoked when the reaper timer fires,
so the timer is no longer scheduled on entry): one pass over `clients` erasing
every client whose `IsClosed()` is true, then
`reaper.Schedule(std::chrono::seconds(3))` if `clients` is non-empty. -/
def ReapClients (s : ServerState) : ServerState :=
  let cs := s.clients.filter (fun c => !IsClosed c)
  { s with clients := cs, reaper := if cs.isEmpty then none else some 3 }

/-- Modelled from the spec: the `Timer` of output/Timer.hxx (not among the
sources, tracked through `std::unique_ptr<Timer> ptimer`) — "On first call
after `open`, marks `started=true` and records the start time. Accumulates
`cumulativeBytes`." `Timer::Start` sets `started`; `Timer::Add(size)`
accumulates the deposited byte count. -/
structure Timer where
  started : Bool
  cumulativeBytes : Nat
deriving DecidableEq

/-- State of the `Visualization` shared-state object plus the process-wide
`static size_t num_calls` counter that lives inside `Visualization::Play`
(a function-local static: it is initialised once per process and is *not*
reset by `Open`/`Close` or by constructing a new `Visualization`). -/
structure VisState where
  ptimer : Option Timer
  num_calls : Nat
deriving DecidableEq

namespace Visualization

/-- `Visualization::Open`: `ptimer.reset(new Timer(audio_format))` — installs
a fresh timer (not started, zero accumulated bytes); `num_calls` is untouched. -/
def Open (s : VisState) : VisState :=
  { s with ptimer := some { started := false, cumulativeBytes := 0 } }

/-- `Visualization::Close`: `ptimer = 0`. -/
def Close (s : VisState) : VisState :=
  { s with ptimer := none }

/-- `Visualization::Play(const void*, size_t size)`: dereferences `ptimer`
(`none` models the null dereference when called before `Open` — undefined
behaviour, hence `Option`), starts the timer if not started, `Add(size)`,
increments the static `num_calls`, and emits the lead/lag diagnostic when
`0 == (num_calls % 500)`; returns `size`. The data pointer is an unnamed,
unused parameter in the source; result is
`(returned size, diagnostic emitted?, new state)`. -/
def Play (_data : Option (List Nat)) (size : Nat) (s : VisState) :
    Option (Nat × Bool × VisState) :=
  match s.ptimer with
  | none => none
  | some t =>
    let t1 := if t.started then t else { t with started := true }
    let t2 := { t1 with cumulativeBytes := t1.cumulativeBytes + size }
    let n := s.num_calls + 1
    some (size, n % 500 == 0, { ptimer := some t2, num_calls := n })

/-- Iterate `Play` (with null data) `k` times, the first call carrying index
`i`; returns `none` if any call hits a null `ptimer`, otherwise the final
state, the list of 1-based call indices at which the diagnostic was emitted,
and the list of returned byte counts. -/
def runPlays (size : Nat) : Nat → Nat → VisState → Option (VisState × List Nat × List Nat)
  | _, 0, s => some (s, [], [])
  | i, k+1, s =>
    match Play none size s with
    | none => none
    | some (r, diag, s1) =>
      match runPlays size (i+1) k s1 with
      | none => none
      | some (sf, ds, rs) => some (sf, (if diag then [i] else []) ++ ds, r :: rs)

end Visualization

/-- Closed form of the timer after `k` deposits of `size` bytes into a timer
`t`: unchanged for `k = 0`, otherwise started with `k * size` further bytes
accumulated. -/
def runTimer (t : Timer) (k size : Nat) : Timer :=
  if k = 0 then t
  else { started := true, cumulativeBytes := t.cumulativeBytes + k * size }

/-- Closed form of the diagnostic positions: the indices (starting at `i`) of
those among the next `k` `Play` calls that emit the lead/lag diagnostic when
the static `num_calls` counter starts at `c` (call `j` sees counter `c + j`
and reports iff it is a multiple of 500). -/
def diagIdxs : Nat → Nat → Nat → List Nat
  | _, _, 0 => []
  | i, c, k + 1 => (if (c + 1) % 500 == 0 then [i] else []) ++ diagIdxs (i + 1) (c + 1) k

/-- State of the `VisualizationOutput` facade: its two `std::unique_ptr`
members, `pvis` then `pserver` (declared in that order; constructed
`pvis` first, then `pserver` referencing `*pvis`). -/
structure OutputState where
  pserver : Option ServerState
  pvis : Option VisState
deriving DecidableEq

/-- `VisualizationOutput::~VisualizationOutput`:
`pserver = 0; pvis = 0;` — the sequence of facade states observed after each
of the two statements, in program order. Destroying `pserver` destroys the
server and with it every client it owns; destroying `pvis` frees the shared
state. -/
def outputDtorStates (s : OutputState) : List OutputState :=
  [{ s with pserver := none }, { pserver := none, pvis := none }]

/-! ## Claim C1 — capacity bound at accept -/

/-- C1 counterexample: with `max_clients = 2` and three clients connecting in
sequence, `OnAccept` accepts and inserts all *three* — the guard
`clients.size() > max_clients` is strict, so the third accept sees size
`2 > 2 = false` and inserts. The claim's assertions that the third socket is
rejected and that `len(ConnectionSet) ≤ maxClients` holds after every
`onAccept` are both false at this input. -/
theorem claim_C1_counterexample :
    (OnAccept (OnAccept (OnAccept ⟨2, [], none⟩).1).1).2 = true ∧
    (OnAccept (OnAccept (OnAccept ⟨2, [], none⟩).1).1).1.clients.length = 3 ∧
    ¬ ((OnAccept (OnAccept (OnAccept ⟨2, [], none⟩).1).1).1.clients.length ≤ 2) := by
  decide

/-- C1 amended: when `maxClients ≠ 0`, `OnAccept` accepts exactly while the
current size is `≤ maxClients` (so the first `maxClients + 1` clients are
admitted — with `maxClients = 2` the first three — and the next one is
rejected with the server state unchanged, its socket closed and never
inserted); consequently `len(ConnectionSet) ≤ maxClients + 1` is preserved
by every `OnAccept`. -/
theorem claim_C1_capacity (s : ServerState) (hm : s.max_clients ≠ 0) :
    (s.clients.length ≤ s.max_clients + 1 →
      (OnAccept s).1.clients.length ≤ s.max_clients + 1) ∧
    (s.clients.length ≤ s.max_clients →
      OnAccept s =
        ({ s with clients := s.clients ++ [initialClient], reaper := some 3 }, true)) ∧
    (s.clients.length > s.max_clients → OnAccept s = (s, false)) := by
  unfold OnAccept
  by_cases hgt : s.clients.length > s.max_clients
  · rw [if_pos ⟨hm, hgt⟩]
    exact ⟨fun hle => hle, fun hle => absurd hle (not_le.mpr hgt), fun _ => rfl⟩
  · rw [if_neg (by tauto)]
    refine ⟨fun _ => ?_, fun _ => rfl, fun h => absurd h hgt⟩
    simp only [List.length_append, List.length_cons, List.length_nil]
    omega

/-- C1 witness: at a server with `max_clients = 2` already holding three
clients, `OnAccept` rejects and leaves the state unchanged. -/
theorem claim_C1_capacity_witness :
    OnAccept ⟨2, [initialClient, initialClient, initialClient], some 3⟩ =
      (⟨2, [initialClient, initialClient, initialClient], some 3⟩, false) :=
  (claim_C1_capacity ⟨2, [initialClient, initialClient, initialClient], some 3⟩
    (by decide)).2.2 (by decide)

/-! ## Claim C2 — would-block vs. partial write -/

/-- C2 counterexample: on a writable event where the non-blocking write
transmits only 1 of the 2 buffered bytes (a partial write, `0 ≤ n < len`),
the code takes the success path: the *entire* buffer — including the unsent
byte `105` — is erased and write interest is cancelled, so the unsent
outbound bytes are not preserved and write interest is not re-armed,
contradicting the claim. -/
theorem claim_C2_counterexample :
    (clientStep { initialClient with buffer := [104, 105], writeScheduled := true }
        (.writable (.ok 1))).2 = [104] ∧
    (clientStep { initialClient with buffer := [104, 105], writeScheduled := true }
        (.writable (.ok 1))).1.buffer = [] ∧
    (clientStep { initialClient with buffer := [104, 105], writeScheduled := true }
        (.writable (.ok 1))).1.writeScheduled = false := by
  decide

/-- C2 amended: a send-would-block is indeed not an error — write interest is
re-armed, the connection stays Active and the buffer is preserved untouched —
but a partial write is *not* handled: any non-negative return `n` (including
`0 ≤ n < len`) is treated as a full flush, clearing the whole buffer
(dropping the unsent suffix, only `buffer.take n` having reached the peer)
and cancelling write interest, with the connection staying Active. -/
theorem claim_C2_wouldblock (s : ClientState) :
    ((clientStep s (.writable (.err .wouldBlock))).1 =
        { s with writeScheduled := true } ∧
      (clientStep s (.writable (.err .wouldBlock))).2 = []) ∧
    (∀ n : Nat,
      (clientStep s (.writable (.ok n))).1 =
          { s with buffer := [], writeScheduled := false } ∧
      (clientStep s (.writable (.ok n))).2 = s.buffer.take n) := by
  exact ⟨⟨rfl, rfl⟩, fun n => ⟨rfl, rfl⟩⟩

/-! ## Claim C3 — echo round-trip -/

/-- C3: starting from a client whose outbound buffer is empty, receiving the
byte sequence `bs` queues exactly `bs` and schedules a write; a subsequent
writable event on which the non-blocking write accepts the whole buffer
transmits exactly `bs`, byte-for-byte and in order, after which the outbound
buffer is empty and write interest is cancelled, with the connection still
Active. -/
theorem claim_C3_echo (s : ClientState) (bs : List Nat) (h : s.buffer = []) :
    (clientStep s (.input bs)).1.buffer = bs ∧
    (clientStep s (.input bs)).1.writeScheduled = true ∧
    (clientStep (clientStep s (.input bs)).1
        (.writable (.ok (clientStep s (.input bs)).1.buffer.length))).2 = bs ∧
    (clientStep (clientStep s (.input bs)).1
        (.writable (.ok (clientStep s (.input bs)).1.buffer.length))).1.buffer = [] ∧
    (clientStep (clientStep s (.input bs)).1
        (.writable (.ok (clientStep s (.input bs)).1.buffer.length))).1.writeScheduled
      = false ∧
    (clientStep (clientStep s (.input bs)).1
        (.writable (.ok (clientStep s (.input bs)).1.buffer.length))).1.closed
      = s.closed := by
  simp [clientStep, onSocketInput, onSocketReadyWrite, h]

/-- C3 witness: a fresh client receives `"ping"` (bytes 112, 105, 110, 103)
and, on the next writable event with a full write, echoes exactly those bytes
back, leaving the buffer empty and write interest cancelled. -/
theorem claim_C3_echo_witness :
    (clientStep initialClient (.input [112, 105, 110, 103])).1.buffer
        = [112, 105, 110, 103] ∧
    (clientStep initialClient (.input [112, 105, 110, 103])).1.writeScheduled = true ∧
    (clientStep (clientStep initialClient (.input [112, 105, 110, 103])).1
        (.writable (.ok (clientStep initialClient
          (.input [112, 105, 110, 103])).1.buffer.length))).2
      = [112, 105, 110, 103] ∧
    (clientStep (clientStep initialClient (.input [112, 105, 110, 103])).1
        (.writable (.ok (clientStep initialClient
          (.input [112, 105, 110, 103])).1.buffer.length))).1.buffer = [] ∧
    (clientStep (clientStep initialClient (.input [112, 105, 110, 103])).1
        (.writable (.ok (clientStep initialClient
          (.input [112, 105, 110, 103])).1.buffer.length))).1.writeScheduled = false ∧
    (clientStep (clientStep initialClient (.input [112, 105, 110, 103])).1
        (.writable (.ok (clientStep initialClient
          (.input [112, 105, 110, 103])).1.buffer.length))).1.closed
      = initialClient.closed :=
  claim_C3_echo initialClient [112, 105, 110, 103] rfl

/-! ## Claim C4 — reaping -/

/-- C4: one `ReapClients` call leaves exactly the clients whose `IsClosed()`
is false (so it erases exactly the closed ones — in particular any client
reporting `IsClosed() = true` before the call is gone afterwards), and it
reschedules itself after the fixed 3-second interval if and only if the set
is non-empty after the scan, going idle (`reaper = none`) otherwise. -/
theorem claim_C4_reap (s : ServerState) :
    (ReapClients s).clients = s.clients.filter (fun c => !IsClosed c) ∧
    (∀ c, c ∈ s.clients → IsClosed c = true → c ∉ (ReapClients s).clients) ∧
    ((ReapClients s).reaper = some 3 ↔ (ReapClients s).clients ≠ []) ∧
    ((ReapClients s).clients = [] → (ReapClients s).reaper = none) := by
  refine ⟨rfl, fun c _ hc hmem => ?_, ?_, ?_⟩
  · have : (!IsClosed c) = true := (List.mem_filter.mp hmem).2
    rw [hc] at this
    exact Bool.false_ne_true this
  · show (if (s.clients.filter (fun c => !IsClosed c)).isEmpty then none
        else some 3 : Option Nat) = some 3 ↔ _
    by_cases he : (s.clients.filter (fun c => !IsClosed c)).isEmpty
    · rw [if_pos he]
      simp [ReapClients, List.isEmpty_iff.mp he]
    · rw [if_neg he]
      simp only [true_iff]
      show s.clients.filter (fun c => !IsClosed c) ≠ []
      exact fun hnil => he (by rw [hnil]; rfl)
  · intro hnil
    have hnil2 : s.clients.filter (fun c => !IsClosed c) = [] := hnil
    show (if (s.clients.filter (fun c => !IsClosed c)).isEmpty then none
        else some 3 : Option Nat) = none
    rw [if_pos (List.isEmpty_iff.mpr hnil2)]

/-- C4 witness: a server holding one closed and one active client; after
`ReapClients` the closed one has been removed. -/
theorem claim_C4_reap_witness :
    { initialClient with closed := true } ∉
      (ReapClients ⟨0, [{ initialClient with closed := true }, initialClient],
        some 3⟩).clients :=
  (claim_C4_reap ⟨0, [{ initialClient with closed := true }, initialClient],
    some 3⟩).2.1 { initialClient with closed := true } (by decide) rfl

/-! ## Claim C5 — error containment -/

/-- C5: on a writable event whose write fails with any socket error other
than would-block, and on a hangup event, the client transitions to Closed,
cancels both read and write interest, and releases its socket; nothing is
transmitted and no error value escapes the handler (the handlers are
`noexcept` and return `void`; in the embedding `clientStep` is a total
function into `ClientState × List Nat`, and the server only ever inspects a
client through `IsClosed`, as in `ReapClients`). -/
theorem claim_C5_containment (s : ClientState) (e : SockErr)
    (he : e ≠ SockErr.wouldBlock) :
    (IsClosed (clientStep s (.writable (.err e))).1 = true ∧
      (clientStep s (.writable (.err e))).1.readScheduled = false ∧
      (clientStep s (.writable (.err e))).1.writeScheduled = false ∧
      (clientStep s (.writable (.err e))).1.released = true ∧
      (clientStep s (.writable (.err e))).2 = []) ∧
    (IsClosed (clientStep s .hangup).1 = true ∧
      (clientStep s .hangup).1.readScheduled = false ∧
      (clientStep s .hangup).1.writeScheduled = false ∧
      (clientStep s .hangup).1.released = true ∧
      (clientStep s .hangup).2 = []) := by
  cases e with
  | wouldBlock => exact absurd rfl he
  | closedErr => exact ⟨⟨rfl, rfl, rfl, rfl, rfl⟩, ⟨rfl, rfl, rfl, rfl, rfl⟩⟩
  | other => exact ⟨⟨rfl, rfl, rfl, rfl, rfl⟩, ⟨rfl, rfl, rfl, rfl, rfl⟩⟩

/-- C5 witness: a fresh client hit by a non-would-block write error is
Closed, de-registered and its socket released. -/
theorem claim_C5_containment_witness :
    IsClosed (clientStep initialClient (.writable (.err .other))).1 = true ∧
    (clientStep initialClient (.writable (.err .other))).1.released = true :=
  ⟨(claim_C5_containment initialClient .other (by decide)).1.1,
   (claim_C5_containment initialClient .other (by decide)).1.2.2.2.1⟩

/-! ## Claim C6 — liveness is one-way and terminal -/

/-- No event handler ever resets the `closed` flag: one step preserves
`closed = true`. -/
theorem clientStep_closed_mono (s : ClientState) (e : ClientEvent)
    (h : s.closed = true) : (clientStep s e).1.closed = true := by
  cases e with
  | input bs => exact h
  | writable w =>
    cases w with
    | ok n => exact h
    | err e' => cases e' <;> first | exact h | rfl
  | hangup => rfl
  | sockErrEvent => exact h
  | sockClosed => rfl

/-- Step-invariant: whenever the `closed` flag is set, the socket has already
been released (every path that sets `closed` also calls `Close()`). -/
theorem clientStep_closed_released (s : ClientState)
    (hs : s.closed = true → s.released = true) (e : ClientEvent)
    (h : (clientStep s e).1.closed = true) : (clientStep s e).1.released = true := by
  cases e with
  | input bs => exact hs h
  | writable w =>
    cases w with
    | ok n => exact hs h
    | err e' => cases e' <;> first | exact hs h | rfl
  | hangup => rfl
  | sockErrEvent => exact hs h
  | sockClosed => rfl

/-- Running from any state satisfying the closed-implies-released invariant
preserves it. -/
theorem runClient_closed_released (es : List ClientEvent) : ∀ s : ClientState,
    (s.closed = true → s.released = true) →
    ((runClient s es).closed = true → (runClient s es).released = true) := by
  induction es with
  | nil => exact fun s hs => hs
  | cons e es ih =>
    exact fun s hs => ih (clientStep s e).1 (clientStep_closed_released s hs e)

/-- `runClient` over an appended event list is sequential composition. -/
theorem runClient_append (es fs : List ClientEvent) : ∀ s : ClientState,
    runClient s (es ++ fs) = runClient (runClient s es) fs := by
  induction es with
  | nil => exact fun s => rfl
  | cons e es ih => exact fun s => ih (clientStep s e).1

/-- `closed = true` persists across any further run. -/
theorem runClient_closed_mono (fs : List ClientEvent) : ∀ s : ClientState,
    s.closed = true → (runClient s fs).closed = true := by
  induction fs with
  | nil => exact fun s h => h
  | cons e fs ih => exact fun s h => ih (clientStep s e).1 (clientStep_closed_mono s e h)

/-- C6: for every event history `es` of a freshly accepted client after which
the liveness flag is Closed, (a) the flag stays Closed under every further
event sequence `fs` (one-way, terminal), and (b) the socket has been
released, so by the event-loop delivery contract no further event is
deliverable — the client performs no further I/O and is inert, eligible only
for removal. -/
theorem claim_C6_terminal (es fs : List ClientEvent)
    (h : (runClient initialClient es).closed = true) :
    (runClient initialClient (es ++ fs)).closed = true ∧
    (runClient initialClient es).released = true ∧
    ∀ e : ClientEvent, ¬ deliverable (runClient initialClient es) e := by
  have hrel : (runClient initialClient es).released = true :=
    runClient_closed_released es initialClient (fun hc => absurd hc (by decide)) h
  refine ⟨?_, hrel, fun e hd => ?_⟩
  · rw [runClient_append]
    exact runClient_closed_mono fs (runClient initialClient es) h
  · rw [deliverable, hrel] at hd
    exact Bool.noConfusion hd

/-- C6 witness: after a hangup the client is Closed and released, stays
Closed across a later readable event, and no event is deliverable. -/
theorem claim_C6_terminal_witness :
    (runClient initialClient ([ClientEvent.hangup] ++ [ClientEvent.input [1]])).closed
        = true ∧
    (runClient initialClient [ClientEvent.hangup]).released = true ∧
    ∀ e : ClientEvent, ¬ deliverable (runClient initialClient [ClientEvent.hangup]) e :=
  claim_C6_terminal [ClientEvent.hangup] [ClientEvent.input [1]] rfl

/-! ## Claim C7 — deposit accounting and periodic diagnostic -/

set_option maxRecDepth 40000 in
/-- C7 counterexample: `num_calls` is a function-local `static` that `Open`
does not reset. In a process whose static counter already stands at 250 when
`Open` is called, 500 subsequent `Play(·, 1024)` calls emit the lead/lag
diagnostic exactly once — but on the 250th call of the sequence (when the
static counter reaches 500), not on the 500th as the claim states. The
accounting parts hold: `cumulativeBytes = 500 * 1024` and every call returns
1024. -/
theorem claim_C7_counterexample :
    Visualization.runPlays 1024 1 500
        (Visualization.Open { ptimer := none, num_calls := 250 }) =
      some ({ ptimer := some { started := true, cumulativeBytes := 500 * 1024 },
              num_calls := 750 },
            [250], List.replicate 500 1024) ∧
    ([250] : List Nat) ≠ [500] := by
  exact ⟨by rfl, by decide⟩

/-- One `Play` call on a live timer: returns the size, reports iff the
incremented static counter is a multiple of 500, starts the timer and adds
`size` bytes. -/
theorem visPlay_step (size c : Nat) (t : Timer) :
    Visualization.Play none size { ptimer := some t, num_calls := c } =
      some (size, (c + 1) % 500 == 0,
        { ptimer := some { started := true,
                           cumulativeBytes := t.cumulativeBytes + size },
          num_calls := c + 1 }) := by
  cases t with
  | mk st cb => cases st <;> rfl

/-- Closed form of `runPlays` on a live timer: every call returns `size`, the
counter advances by `k`, the timer accumulates `k * size`, and the diagnostic
fires exactly at the positions `diagIdxs i c k`. -/
theorem runPlays_accum (size : Nat) : ∀ (k i c : Nat) (t : Timer),
    Visualization.runPlays size i k { ptimer := some t, num_calls := c } =
      some ({ ptimer := some (runTimer t k size), num_calls := c + k },
            diagIdxs i c k, List.replicate k size) := by
  intro k
  induction k with
  | zero => intro i c t; rfl
  | succ k ih =>
    intro i c t
    have h1 : runTimer { started := true, cumulativeBytes := t.cumulativeBytes + size }
        k size = runTimer t (k + 1) size := by
      cases k with
      | zero => simp [runTimer]
      | succ m =>
        simp only [runTimer, Nat.succ_ne_zero, if_neg, if_false]
        refine congrArg (fun x => Timer.mk true x) ?_
        ring
    have h2 : c + 1 + k = c + (k + 1) := by omega
    calc Visualization.runPlays size i (k + 1) { ptimer := some t, num_calls := c }
        = (match Visualization.runPlays size (i + 1) k
              { ptimer := some { started := true,
                                 cumulativeBytes := t.cumulativeBytes + size },
                num_calls := c + 1 } with
          | none => none
          | some (sf, ds, rs) =>
              some (sf, (if (c + 1) % 500 == 0 then [i] else []) ++ ds,
                size :: rs)) := by
            rw [Visualization.runPlays, visPlay_step size c t]
      _ = some ({ ptimer := some (runTimer t (k + 1) size), num_calls := c + (k + 1) },
            diagIdxs i c (k + 1), List.replicate (k + 1) size) := by
            rw [ih (i + 1) (c + 1)
              { started := true, cumulativeBytes := t.cumulativeBytes + size }]
            rw [show diagIdxs i c (k + 1) =
                (if (c + 1) % 500 == 0 then [i] else []) ++ diagIdxs (i + 1) (c + 1) k
              from rfl]
            rw [h1, h2, List.replicate_succ]

/-- When the hit falls on the last of the `k` calls (`c % 500 + k = 500`),
the diagnostic fires exactly once, at the final index. -/
theorem diagIdxs_last : ∀ (k i c : Nat), 1 ≤ k → c % 500 + k = 500 →
    diagIdxs i c k = [i + k - 1] := by
  intro k
  induction k with
  | zero => intro i c h1 _; exact absurd h1 (by omega)
  | succ k ih =>
    intro i c _ hsum
    cases Nat.eq_zero_or_pos k with
    | inl hk0 =>
      subst hk0
      have hc : (c + 1) % 500 = 0 := by omega
      have hb : ((c + 1) % 500 == 0) = true := by simp [hc]
      show (if (c + 1) % 500 == 0 then [i] else []) ++ diagIdxs (i + 1) (c + 1) 0
          = [i + 1 - 1]
      rw [if_pos hb]
      simp [diagIdxs]
    | inr hkpos =>
      have hne : (c + 1) % 500 ≠ 0 := by omega
      have hb : ¬ ((c + 1) % 500 == 0) = true := by simpa using hne
      show (if (c + 1) % 500 == 0 then [i] else []) ++ diagIdxs (i + 1) (c + 1) k
          = [i + (k + 1) - 1]
      rw [if_neg hb, List.nil_append, ih (i + 1) (c + 1) hkpos (by omega)]
      have : i + 1 + k - 1 = i + (k + 1) - 1 := by omega
      rw [this]

/-- C7 amended: for every state in which `Open` has just been called in a
process whose static `num_calls` counter `c` is a multiple of 500 (in
particular a fresh process, `c = 0`), calling `Play` 500 times with size 1024
accumulates `cumulativeBytes = 500 * 1024`, emits the lead/lag diagnostic
exactly once — on the 500th call — and every call returns its size argument
1024 unconditionally. -/
theorem claim_C7_deposit (c : Nat) (hc : c % 500 = 0) :
    Visualization.runPlays 1024 1 500
        (Visualization.Open { ptimer := none, num_calls := c }) =
      some ({ ptimer := some { started := true, cumulativeBytes := 500 * 1024 },
              num_calls := c + 500 },
            [500], List.replicate 500 1024) := by
  show Visualization.runPlays 1024 1 500
      { ptimer := some { started := false, cumulativeBytes := 0 }, num_calls := c } = _
  rw [runPlays_accum 1024 500 1 c { started := false, cumulativeBytes := 0 }]
  rw [diagIdxs_last 500 1 c (by omega) (by omega)]
  rfl

/-- C7 witness: the fresh-process instance (`c = 0`) of the amended claim. -/
theorem claim_C7_deposit_witness :
    Visualization.runPlays 1024 1 500
        (Visualization.Open { ptimer := none, num_calls := 0 }) =
      some ({ ptimer := some { started := true, cumulativeBytes := 500 * 1024 },
              num_calls := 0 + 500 },
            [500], List.replicate 500 1024) :=
  claim_C7_deposit 0 rfl

/-! ## Claim C8 — destruction ordering in the facade -/

/-- C8: along `~VisualizationOutput` (`pserver = 0; pvis = 0;`), every
intermediate facade state in which the shared state has been freed
(`pvis = none`) already has the server — and with it every connection it
owns — torn down (`pserver = none`): at no instant does a live connection
reference a freed shared state. -/
theorem claim_C8_dtor_order (s : OutputState) :
    ∀ t ∈ outputDtorStates s, t.pvis = none → t.pserver = none := by
  intro t ht _
  rcases List.mem_pair.mp ht with h | h <;> rw [h]

/-- C8 witness: destruction of a concrete facade (a server with no clients, a
closed shared state); at the final teardown state the shared state is freed
and the server is indeed already gone. -/
theorem claim_C8_dtor_order_witness :
    (({ pserver := none, pvis := none } : OutputState)).pserver = none :=
  claim_C8_dtor_order
    { pserver := some ⟨0, [], none⟩, pvis := some { ptimer := none, num_calls := 0 } }
    { pserver := none, pvis := none } (by decide) rfl

/-! ## Claim C9 — idempotent close -/

/-- C9: the destructor releases the socket only if the liveness flag is not
yet set — on an already-Closed client it is the identity (no second release,
no error); on a not-yet-closed client it releases exactly once and sets the
flag. In particular, `OnSocketClosed` followed by destruction releases the
socket exactly once: the handler closes it (one release, flag set) and the
subsequent destructor is a no-op. -/
theorem claim_C9_idempotent_close (s : ClientState) :
    (s.closed = true → clientDtor s = s) ∧
    (s.closed = false →
      (clientDtor s).releases = s.releases + 1 ∧ (clientDtor s).closed = true) ∧
    ((clientStep s .sockClosed).1.closed = true ∧
      (clientStep s .sockClosed).1.releases = s.releases + 1 ∧
      clientDtor (clientStep s .sockClosed).1 = (clientStep s .sockClosed).1) := by
  refine ⟨fun hc => ?_, fun hc => ?_, rfl, rfl, rfl⟩
  · rw [clientDtor, if_pos hc]
  · rw [clientDtor, if_neg (by rw [hc]; exact Bool.noConfusion)]
    exact ⟨rfl, rfl⟩

/-- C9 witness: a fresh client receiving `OnSocketClosed` and then being
destroyed releases its socket exactly once, and destroying an already-closed
client changes nothing. -/
theorem claim_C9_idempotent_close_witness :
    clientDtor { initialClient with closed := true } =
      { initialClient with closed := true } ∧
    (clientDtor (clientStep initialClient .sockClosed).1).releases = 1 :=
  ⟨(claim_C9_idempotent_close { initialClient with closed := true }).1 rfl,
   by rw [(claim_C9_idempotent_close initialClient).2.2.2.2]
      exact (claim_C9_idempotent_close initialClient).2.2.2.1⟩

/-! ## Claim C10 — `Play` is insensitive to the data contents -/

/-- C10: `Visualization::Play(const void*, size_t)` never inspects its data
pointer (the parameter is unnamed in the source); for every state and size,
two calls with arbitrary, even differing or null, data arguments return the
same value and produce exactly the same state change (timer start,
accumulated bytes, diagnostic counter). -/
theorem claim_C10_data_insensitive (d1 d2 : Option (List Nat)) (size : Nat)
    (s : VisState) :
    Visualization.Play d1 size s = Visualization.Play d2 size s := rfl

end MPDVis
